import Mathlib

/-!
Verification development for the `doin-optimizer` repository
(`src/doin_optimizer/runner.py`, `src/doin_optimizer/cli.py`).

The Python runner is shallowly embedded: performance values (Python floats)
become rationals, the pluggable strategy becomes a function value, the HTTP
round trip becomes an explicit outcome parameter, and the asynchronous loop
becomes a fuel-indexed recursion over an explicit `RunnerState`.
-/

namespace DoinOptimizer

/-- Parameter mappings (`dict[str, Any]` holding numeric values in the
source) are embedded as association lists from keys to rationals. -/
abbrev Params := List (String × ℚ)

/-- Domain metadata (`dict[str, Any]`); the runner only ever reads the
boolean key `higher_is_better`, so values are embedded as booleans. -/
abbrev Metadata := List (String × Bool)

/-- Python `dict.get(key, default)` on the metadata mapping. -/
def Metadata.get (m : Metadata) (key : String) (dflt : Bool) : Bool :=
  match m.find? (fun kv => kv.1 == key) with
  | some kv => kv.2
  | none => dflt

/-- Outcome of one call to `plugin.optimize(...)`: a candidate pair,
the dedicated `NoImprovementError`, or any other exception
(the `except Exception` arm in `_optimization_step`). -/
inductive PluginResult where
  | ok (params : Params) (performance : ℚ)
  | noImprovement
  | evaluationError
  deriving DecidableEq, Repr

/-- One call's worth of behaviour of an `OptimizationPlugin`:
`optimize` receives the runner's current best pair, and
`get_domain_metadata` is the returned metadata mapping. -/
structure OptimizationPlugin where
  optimize : Option Params → Option ℚ → PluginResult
  get_domain_metadata : Metadata

/-- `OptimizerConfig` from `runner.py` (`plugin_config` is opaque to the
runner — it is only forwarded to the plugin — and is embedded as an
association list of strings). `max_steps : int | None` becomes
`Option Int`. -/
structure OptimizerConfig where
  domain_id : String
  plugin_name : String
  plugin_config : List (String × String) := []
  node_endpoint : String := "localhost:8470"
  optimization_interval : ℚ := 1
  max_steps : Option Int := none

/-- The mutable fields of `OptimizationRunner` that the loop reads and
writes: the current-best pair, the two counters and the running flag. -/
structure RunnerState where
  currentBestParams : Option Params
  currentBestPerformance : Option ℚ
  stepsCompleted : Nat
  improvementsFound : Nat
  running : Bool
  deriving DecidableEq, Repr

/-- The state established by `OptimizationRunner.__init__`. -/
def initState : RunnerState :=
  { currentBestParams := none
    currentBestPerformance := none
    stepsCompleted := 0
    improvementsFound := 0
    running := false }

/-- `Optimae` record as constructed in `_optimization_step`. The unique
`id` is assigned by `doin_core.models.optimae` (not under `src/`);
modelled from the spec: a unique identifier assigned at creation, opaque
to every claim here, so it is embedded as an uninterpreted string field. -/
structure Optimae where
  domain_id : String
  optimizer_id : String
  parameters : Params
  reported_performance : ℚ
  performance_increment : ℚ
  id : String
  deriving DecidableEq, Repr

/-- `OptimaeAnnouncement` payload from `doin_core.protocol.messages` as
populated by `_submit_optimae`. -/
structure OptimaeAnnouncement where
  domain_id : String
  optimae_id : String
  parameters : Params
  reported_performance : ℚ
  previous_best_performance : Option ℚ
  deriving DecidableEq, Repr

/-- Message type tags used by the runner. -/
inductive MessageType where
  | OPTIMAE_ANNOUNCEMENT
  deriving DecidableEq, Repr

/-- The wire envelope built in `_submit_optimae`; the JSON payload is
embedded structurally as the announcement itself. -/
structure Message where
  msg_type : MessageType
  sender_id : String
  payload : OptimaeAnnouncement
  deriving DecidableEq, Repr

/-- Result of the HTTP POST in `_submit_optimae`: a response with a
status code, or a transport-level fault (the `except Exception` arm). -/
inductive HttpOutcome where
  | status (code : Nat)
  | fault
  deriving DecidableEq, Repr

/-- `_submit_optimae`: with no session, warn and return `False` without
building a message; otherwise build the announcement — reading
`self._current_best_performance` from the state at call time — wrap it
in a `Message`, POST it, and report `resp.status == 200` (a transport
fault yields `False`). Returns the message that was posted (if any)
alongside the boolean result. -/
def submit_optimae (peer_id : String) (st : RunnerState) (optimae : Optimae)
    (hasSession : Bool) (net : HttpOutcome) : Option Message × Bool :=
  if !hasSession then (none, false)
  else
    let announcement : OptimaeAnnouncement :=
      { domain_id := optimae.domain_id
        optimae_id := optimae.id
        parameters := optimae.parameters
        reported_performance := optimae.reported_performance
        previous_best_performance := st.currentBestPerformance }
    let message : Message :=
      { msg_type := MessageType.OPTIMAE_ANNOUNCEMENT
        sender_id := peer_id
        payload := announcement }
    match net with
    | HttpOutcome.status code => (some message, code == 200)
    | HttpOutcome.fault => (some message, false)

/-- The improvement check of `_optimization_step` (lines 146–153):
with a current best, reject when `higher_is_better` and
`new_performance <= best`, or when not `higher_is_better` and
`new_performance >= best`; with no current best, never reject. -/
def tracker_rejects (plugin : OptimizationPlugin) (st : RunnerState)
    (new_performance : ℚ) : Bool :=
  match st.currentBestPerformance with
  | none => false
  | some best =>
    let higher_is_better :=
      Metadata.get plugin.get_domain_metadata "higher_is_better" true
    if higher_is_better && decide (new_performance ≤ best) then true
    else if !higher_is_better && decide (new_performance ≥ best) then true
    else false

/-- Everything `_optimization_step` produces: the updated runner state,
the returned `Optimae | None`, the message posted to the node (if any)
and the submission result. -/
structure StepOutcome where
  state : RunnerState
  result : Option Optimae
  sent : Option Message
  submitOk : Bool
  deriving DecidableEq, Repr

/-- `_optimization_step`: call the plugin (swallowing `NoImprovementError`
and any other exception as a `None` result), run the improvement check,
and on acceptance build the `Optimae` (increment `0.0` with no prior
best, else `abs(new - best)`), update the local best pair and the
improvements counter, and only then submit — so `_submit_optimae` reads
the already-updated state. -/
def optimization_step (config : OptimizerConfig) (peer_id : String)
    (plugin : OptimizationPlugin) (hasSession : Bool) (net : HttpOutcome)
    (st : RunnerState) : StepOutcome :=
  match plugin.optimize st.currentBestParams st.currentBestPerformance with
  | PluginResult.noImprovement => ⟨st, none, none, false⟩
  | PluginResult.evaluationError => ⟨st, none, none, false⟩
  | PluginResult.ok new_params new_performance =>
    if tracker_rejects plugin st new_performance then ⟨st, none, none, false⟩
    else
      let increment : ℚ :=
        match st.currentBestPerformance with
        | none => 0
        | some best => |new_performance - best|
      let optimae : Optimae :=
        { domain_id := config.domain_id
          optimizer_id := peer_id
          parameters := new_params
          reported_performance := new_performance
          performance_increment := increment
          id := "" }
      let st1 : RunnerState :=
        { st with
          currentBestParams := some new_params
          currentBestPerformance := some new_performance
          improvementsFound := st.improvementsFound + 1 }
      let sub := submit_optimae peer_id st1 optimae hasSession net
      ⟨st1, some optimae, sub.1, sub.2⟩

/-- The failure raised when the loop is driven with no plugin bound
(`RuntimeError("Plugin not loaded ...")`, the spec's `NotReadyError`). -/
inductive RunnerError where
  | notReady
  deriving DecidableEq, Repr

/-- `run_single_step`: fails when no plugin is bound, otherwise performs
exactly one `_optimization_step` (the session may or may not be open,
since this entry point never opens one itself). -/
def run_single_step (config : OptimizerConfig) (peer_id : String)
    (plugin : Option OptimizationPlugin) (hasSession : Bool)
    (net : HttpOutcome) (st : RunnerState) :
    Except RunnerError StepOutcome :=
  match plugin with
  | none => Except.error RunnerError.notReady
  | some p => Except.ok (optimization_step config peer_id p hasSession net st)

/-- Python truthiness of `self.config.max_steps` in
`if self.config.max_steps and ...`: `None` and `0` are falsy, every
other integer is truthy. -/
def maxStepsTruthy : Option Int → Bool
  | none => false
  | some n => n != 0

/-- The `while self._running` loop body of `start`, fuel-indexed: each
iteration first checks the running flag, then the max-step bound
(`if self.config.max_steps and self._steps_completed >= self.config.max_steps`),
then runs one step and increments `_steps_completed`. The plugin's
behaviour and the network outcome may differ per step and are supplied
as streams indexed by the steps-completed counter. -/
def runLoop (config : OptimizerConfig) (peer_id : String)
    (plugin : Nat → OptimizationPlugin) (net : Nat → HttpOutcome) :
    Nat → RunnerState → RunnerState
  | 0, st => st
  | Nat.succ fuel, st =>
    if !st.running then st
    else if maxStepsTruthy config.max_steps &&
        decide ((st.stepsCompleted : Int) ≥ config.max_steps.getD 0) then st
    else
      let out := optimization_step config peer_id (plugin st.stepsCompleted)
        true (net st.stepsCompleted) st
      runLoop config peer_id plugin net fuel
        { out.state with stepsCompleted := out.state.stepsCompleted + 1 }

/-- `start`: fails when no plugin is bound; otherwise opens the session,
sets the running flag and drives the loop from the given state. -/
def start (config : OptimizerConfig) (peer_id : String)
    (plugin : Option (Nat → OptimizationPlugin)) (net : Nat → HttpOutcome)
    (fuel : Nat) (st : RunnerState) : Except RunnerError RunnerState :=
  match plugin with
  | none => Except.error RunnerError.notReady
  | some p => Except.ok (runLoop config peer_id p net fuel { st with running := true })

/-! Concrete fixtures used by witnesses and counterexamples. -/

/-- A configuration mirroring the test suite's (`max_steps` left absent). -/
def cfgW : OptimizerConfig :=
  { domain_id := "test-domain", plugin_name := "mock", node_endpoint := "localhost:9999" }

/-- A plugin proposing performance `7` in a maximizing domain. -/
def pluginSecond : OptimizationPlugin where
  optimize := fun _ _ => PluginResult.ok [("w", 2)] 7
  get_domain_metadata := [("higher_is_better", true)]

/-- A runner state whose current best pair is `{w: 1}` at performance `5`. -/
def stBest5 : RunnerState :=
  { currentBestParams := some [("w", 1)]
    currentBestPerformance := some 5
    stepsCompleted := 1
    improvementsFound := 1
    running := false }

/-! Helper lemmas about the improvement check. -/

lemma step_result_isSome_eq (config : OptimizerConfig) (peer_id : String)
    (plugin : OptimizationPlugin) (hasSession : Bool) (net : HttpOutcome)
    (st : RunnerState) (p : Params) (q : ℚ)
    (hok : plugin.optimize st.currentBestParams st.currentBestPerformance
      = PluginResult.ok p q) :
    (optimization_step config peer_id plugin hasSession net st).result.isSome
      = !tracker_rejects plugin st q := by
  unfold optimization_step
  rw [hok]
  by_cases h : tracker_rejects plugin st q = true
  · simp [h]
  · simp [h]

lemma tracker_rejects_of_none (plugin : OptimizationPlugin) (st : RunnerState)
    (q : ℚ) (h : st.currentBestPerformance = none) :
    tracker_rejects plugin st q = false := by
  unfold tracker_rejects
  rw [h]

lemma tracker_rejects_false_iff (plugin : OptimizationPlugin) (st : RunnerState)
    (q best : ℚ) (h : st.currentBestPerformance = some best) :
    (tracker_rejects plugin st q = false ↔
      (if Metadata.get plugin.get_domain_metadata "higher_is_better" true
       then best < q else q < best)) := by
  unfold tracker_rejects
  rw [h]
  by_cases hib : Metadata.get plugin.get_domain_metadata "higher_is_better" true
  · simp [hib, not_le]
  · simp [hib, not_le]

lemma step_eq_of_noImprovement (config : OptimizerConfig) (peer_id : String)
    (plugin : OptimizationPlugin) (hasSession : Bool) (net : HttpOutcome)
    (st : RunnerState)
    (h : plugin.optimize st.currentBestParams st.currentBestPerformance
      = PluginResult.noImprovement) :
    optimization_step config peer_id plugin hasSession net st = ⟨st, none, none, false⟩ := by
  unfold optimization_step
  rw [h]

lemma step_eq_of_evaluationError (config : OptimizerConfig) (peer_id : String)
    (plugin : OptimizationPlugin) (hasSession : Bool) (net : HttpOutcome)
    (st : RunnerState)
    (h : plugin.optimize st.currentBestParams st.currentBestPerformance
      = PluginResult.evaluationError) :
    optimization_step config peer_id plugin hasSession net st = ⟨st, none, none, false⟩ := by
  unfold optimization_step
  rw [h]

lemma step_eq_of_rejected (config : OptimizerConfig) (peer_id : String)
    (plugin : OptimizationPlugin) (hasSession : Bool) (net : HttpOutcome)
    (st : RunnerState) (p : Params) (q : ℚ)
    (hok : plugin.optimize st.currentBestParams st.currentBestPerformance
      = PluginResult.ok p q)
    (hrej : tracker_rejects plugin st q = true) :
    optimization_step config peer_id plugin hasSession net st = ⟨st, none, none, false⟩ := by
  unfold optimization_step
  rw [hok]
  simp [hrej]

/-- The `Optimae` built by an accepting step, as a function of its inputs. -/
def acceptedOptimae (config : OptimizerConfig) (peer_id : String)
    (st : RunnerState) (p : Params) (q : ℚ) : Optimae :=
  { domain_id := config.domain_id
    optimizer_id := peer_id
    parameters := p
    reported_performance := q
    performance_increment :=
      match st.currentBestPerformance with
      | none => 0
      | some best => |q - best|
    id := "" }

/-- The state after an accepting step. -/
def acceptedState (st : RunnerState) (p : Params) (q : ℚ) : RunnerState :=
  { st with
    currentBestParams := some p
    currentBestPerformance := some q
    improvementsFound := st.improvementsFound + 1 }

lemma step_eq_of_accepted (config : OptimizerConfig) (peer_id : String)
    (plugin : OptimizationPlugin) (hasSession : Bool) (net : HttpOutcome)
    (st : RunnerState) (p : Params) (q : ℚ)
    (hok : plugin.optimize st.currentBestParams st.currentBestPerformance
      = PluginResult.ok p q)
    (hrej : tracker_rejects plugin st q = false) :
    optimization_step config peer_id plugin hasSession net st =
      ⟨acceptedState st p q,
        some (acceptedOptimae config peer_id st p q),
        (submit_optimae peer_id (acceptedState st p q)
          (acceptedOptimae config peer_id st p q) hasSession net).1,
        (submit_optimae peer_id (acceptedState st p q)
          (acceptedOptimae config peer_id st p q) hasSession net).2⟩ := by
  unfold optimization_step
  rw [hok]
  simp [hrej, acceptedState, acceptedOptimae]

/-- C1: with a current best, the candidate is accepted iff it is a strict
improvement in the declared direction (strictly greater when
`higher_is_better`, strictly smaller otherwise; equal performance is
never accepted); with no current best, the candidate is always
accepted. -/
theorem step_accepts_iff_strict_improvement (config : OptimizerConfig)
    (peer_id : String) (plugin : OptimizationPlugin) (hasSession : Bool)
    (net : HttpOutcome) (st : RunnerState) (p : Params) (q : ℚ)
    (hok : plugin.optimize st.currentBestParams st.currentBestPerformance
      = PluginResult.ok p q) :
    (st.currentBestPerformance = none →
      (optimization_step config peer_id plugin hasSession net st).result.isSome = true) ∧
    (∀ best, st.currentBestPerformance = some best →
      ((optimization_step config peer_id plugin hasSession net st).result.isSome = true ↔
        (if Metadata.get plugin.get_domain_metadata "higher_is_better" true
         then best < q else q < best))) := by
  constructor
  · intro hnone
    rw [step_result_isSome_eq config peer_id plugin hasSession net st p q hok,
      tracker_rejects_of_none plugin st q hnone]
    rfl
  · intro best hbest
    rw [step_result_isSome_eq config peer_id plugin hasSession net st p q hok]
    rw [← tracker_rejects_false_iff plugin st q best hbest]
    constructor
    · intro h
      simpa using h
    · intro h
      simp [h]

/-- Witness for C1: from best performance `5`, a candidate at `7` in a
maximizing domain is accepted. -/
theorem step_accepts_iff_strict_improvement_witness :
    (optimization_step cfgW "peer" pluginSecond true (HttpOutcome.status 200)
      stBest5).result.isSome = true :=
  ((step_accepts_iff_strict_improvement cfgW "peer" pluginSecond true
    (HttpOutcome.status 200) stBest5 [("w", 2)] 7 rfl).2 5 rfl).mpr (by decide)

/-- C2 (failing-input evaluation): the runner updates the local best pair
before calling `_submit_optimae`, and `_submit_optimae` reads
`self._current_best_performance` from the already-updated state; on the
very first accepted candidate (prior best `none`, performance `7`) the
announcement therefore carries `previous_best_performance = some 7` —
the new performance — instead of `none`. -/
theorem first_announcement_previous_best_is_new_performance :
    initState.currentBestPerformance = none ∧
    ((optimization_step cfgW "peer" pluginSecond true (HttpOutcome.status 200)
        initState).result.map (fun o => o.reported_performance)) = some 7 ∧
    ((optimization_step cfgW "peer" pluginSecond true (HttpOutcome.status 200)
        initState).sent.map (fun m => m.payload.previous_best_performance))
      = some (some 7) := by
  decide

/-- C3: every accepted candidate's `Optimae` has performance increment `0`
when there was no prior best, and exactly `abs(new - previousBest)` when
a prior best existed. -/
theorem accepted_increment (config : OptimizerConfig) (peer_id : String)
    (plugin : OptimizationPlugin) (hasSession : Bool) (net : HttpOutcome)
    (st : RunnerState) (o : Optimae)
    (ho : (optimization_step config peer_id plugin hasSession net st).result = some o) :
    (st.currentBestPerformance = none → o.performance_increment = 0) ∧
    (∀ best, st.currentBestPerformance = some best →
      o.performance_increment = |o.reported_performance - best|) := by
  cases hopt : plugin.optimize st.currentBestParams st.currentBestPerformance with
  | noImprovement =>
    rw [step_eq_of_noImprovement config peer_id plugin hasSession net st hopt] at ho
    cases ho
  | evaluationError =>
    rw [step_eq_of_evaluationError config peer_id plugin hasSession net st hopt] at ho
    cases ho
  | ok p q =>
    cases hrej : tracker_rejects plugin st q with
    | true =>
      rw [step_eq_of_rejected config peer_id plugin hasSession net st p q hopt hrej] at ho
      cases ho
    | false =>
      rw [step_eq_of_accepted config peer_id plugin hasSession net st p q hopt hrej] at ho
      cases ho
      constructor
      · intro hnone
        simp [acceptedOptimae, hnone]
      · intro best hbest
        simp [acceptedOptimae, hbest]

/-- Witness for C3: accepting `7` over prior best `5` records increment
`abs(7 - 5)`. -/
theorem accepted_increment_witness :
    (acceptedOptimae cfgW "peer" stBest5 [("w", 2)] 7).performance_increment
      = |(acceptedOptimae cfgW "peer" stBest5 [("w", 2)] 7).reported_performance - 5| :=
  (accepted_increment cfgW "peer" pluginSecond true (HttpOutcome.status 200) stBest5
    (acceptedOptimae cfgW "peer" stBest5 [("w", 2)] 7)
    (by rw [step_eq_of_accepted cfgW "peer" pluginSecond true (HttpOutcome.status 200)
      stBest5 [("w", 2)] 7 rfl (by decide)])).2 5 rfl

/-- A concrete accepted-improvement record for submission fixtures. -/
def optimaeW : Optimae :=
  { domain_id := "test-domain"
    optimizer_id := "peer"
    parameters := [("w", 2)]
    reported_performance := 7
    performance_increment := 2
    id := "" }

/-- C4 counterexample: an HTTP 201 response is in the 2xx class, yet the
submission is reported as a failure — `_submit_optimae` tests
`resp.status == 200` exactly, not membership in the 2xx class. -/
theorem submit_status_201_reported_failure :
    200 ≤ 201 ∧ 201 < 300 ∧
    (submit_optimae "peer" stBest5 optimaeW true (HttpOutcome.status 201)).2 = false := by
  decide

/-- C4 (amended): with an open session, a submission attempt is reported
as success iff the response status is exactly 200; any other status —
including other 2xx statuses — and any transport-level fault is reported
as failure; with no session the attempt is reported as failure without a
request being made. No retry exists in this layer: a submission is a
single request. -/
theorem submit_success_iff_status_200 (peer_id : String) (st : RunnerState)
    (o : Optimae) (net : HttpOutcome) :
    ((submit_optimae peer_id st o true net).2 = true ↔ net = HttpOutcome.status 200) ∧
    (submit_optimae peer_id st o false net).2 = false := by
  constructor
  · cases net with
    | status code => simp [submit_optimae]
    | fault => simp [submit_optimae]
  · rfl

lemma step_preserves_counters (config : OptimizerConfig) (peer_id : String)
    (plugin : OptimizationPlugin) (hasSession : Bool) (net : HttpOutcome)
    (st : RunnerState) :
    (optimization_step config peer_id plugin hasSession net st).state.stepsCompleted
        = st.stepsCompleted ∧
      (optimization_step config peer_id plugin hasSession net st).state.running
        = st.running := by
  cases hopt : plugin.optimize st.currentBestParams st.currentBestPerformance with
  | noImprovement =>
    rw [step_eq_of_noImprovement config peer_id plugin hasSession net st hopt]
    exact ⟨rfl, rfl⟩
  | evaluationError =>
    rw [step_eq_of_evaluationError config peer_id plugin hasSession net st hopt]
    exact ⟨rfl, rfl⟩
  | ok p q =>
    cases hrej : tracker_rejects plugin st q with
    | true =>
      rw [step_eq_of_rejected config peer_id plugin hasSession net st p q hopt hrej]
      exact ⟨rfl, rfl⟩
    | false =>
      rw [step_eq_of_accepted config peer_id plugin hasSession net st p q hopt hrej]
      exact ⟨rfl, rfl⟩

/-- A configuration whose maximum step count is set to `0`. -/
def cfgZeroMax : OptimizerConfig :=
  { domain_id := "test-domain", plugin_name := "mock", max_steps := some 0 }

/-- A configuration whose maximum step count is set to `2`. -/
def cfgTwoMax : OptimizerConfig :=
  { domain_id := "test-domain", plugin_name := "mock", max_steps := some 2 }

/-- C5 counterexample: with the maximum step count set to `0` the bound
check `if self.config.max_steps and ...` is falsy, so the loop does not
stop: three units of fuel yield three completed steps, although a
maximum of `0` is set. -/
theorem zero_max_steps_loop_runs :
    cfgZeroMax.max_steps = some 0 ∧
    (runLoop cfgZeroMax "peer" (fun _ => pluginSecond) (fun _ => HttpOutcome.status 200)
      3 { initState with running := true }).stepsCompleted = 3 := by
  decide

/-- C5 (amended): when a positive maximum step count is set, the bound is
checked before each step and the steps-completed counter never exceeds
the bound, so the loop performs at most that many steps; when the
maximum is absent — or set to `0`, which the truthiness test treats the
same as absent — a running loop never stops on the bound and performs
one step per unit of fuel. -/
theorem runLoop_respects_max_steps (config : OptimizerConfig) (peer_id : String)
    (plugin : Nat → OptimizationPlugin) (net : Nat → HttpOutcome) (fuel : Nat)
    (st : RunnerState) :
    (∀ n : Int, config.max_steps = some n → 0 < n →
      (st.stepsCompleted : Int) ≤ n →
      ((runLoop config peer_id plugin net fuel st).stepsCompleted : Int) ≤ n) ∧
    ((config.max_steps = none ∨ config.max_steps = some 0) → st.running = true →
      (runLoop config peer_id plugin net fuel st).stepsCompleted
        = st.stepsCompleted + fuel) := by
  induction fuel generalizing st with
  | zero =>
    exact ⟨fun n _ _ hst => by simpa [runLoop] using hst, fun _ _ => by simp [runLoop]⟩
  | succ fuel ih =>
    constructor
    · intro n hmax hn hst
      simp only [runLoop]
      cases hrun : st.running with
      | false => simpa [hrun] using hst
      | true =>
        by_cases hstop : (maxStepsTruthy config.max_steps &&
            decide ((st.stepsCompleted : Int) ≥ config.max_steps.getD 0)) = true
        · simpa [hrun, hstop] using hst
        · simp only [hrun, hstop, Bool.not_true, Bool.false_eq_true, if_false]
          refine (ih _).1 n hmax hn ?_
          have hsteps := (step_preserves_counters config peer_id
            (plugin st.stepsCompleted) true (net st.stepsCompleted) st).1
          have htruthy : maxStepsTruthy config.max_steps = true := by
            simp [maxStepsTruthy, hmax]
            omega
          have hlt : (st.stepsCompleted : Int) < n := by
            rw [hmax] at hstop htruthy
            simp [htruthy] at hstop
            simpa using hstop
          simp only [hsteps]
          push_cast
          omega
    · intro hmax hrun
      simp only [runLoop]
      have htruthy : maxStepsTruthy config.max_steps = false := by
        rcases hmax with h | h <;> simp [maxStepsTruthy, h]
      have hsteps := step_preserves_counters config peer_id
        (plugin st.stepsCompleted) true (net st.stepsCompleted) st
      rw [hrun]
      simp only [htruthy, Bool.false_and, Bool.not_true, Bool.false_eq_true, if_false]
      rw [(ih _).2 hmax (by simpa [hsteps.2] using hrun)]
      simp only [hsteps.1]
      omega

/-- Witness for C5 (amended): with a maximum of `2` steps and fuel `5`,
the loop completes at most `2` steps. -/
theorem runLoop_respects_max_steps_witness :
    ((runLoop cfgTwoMax "peer" (fun _ => pluginSecond) (fun _ => HttpOutcome.status 200)
      5 { initState with running := true }).stepsCompleted : Int) ≤ 2 :=
  (runLoop_respects_max_steps cfgTwoMax "peer" (fun _ => pluginSecond)
    (fun _ => HttpOutcome.status 200) 5 { initState with running := true }).1 2 rfl
    (by decide) (by decide)

/-- A plugin that always signals the dedicated no-improvement condition. -/
def pluginNoImprovement : OptimizationPlugin where
  optimize := fun _ _ => PluginResult.noImprovement
  get_domain_metadata := [("higher_is_better", true)]

/-- C6: a step that does not accept — the plugin signals the dedicated
no-improvement condition, the plugin raises any other failure, or the
improvement check rejects the candidate — yields a `none` result,
returned as an ordinary value (not an error) through `run_single_step`,
and leaves the current-best parameters, the current-best performance and
the improvements-found counter unchanged. -/
theorem step_no_accept_preserves_state (config : OptimizerConfig) (peer_id : String)
    (plugin : OptimizationPlugin) (hasSession : Bool) (net : HttpOutcome)
    (st : RunnerState)
    (h : plugin.optimize st.currentBestParams st.currentBestPerformance
        = PluginResult.noImprovement ∨
      plugin.optimize st.currentBestParams st.currentBestPerformance
        = PluginResult.evaluationError ∨
      ∃ p q, plugin.optimize st.currentBestParams st.currentBestPerformance
          = PluginResult.ok p q ∧ tracker_rejects plugin st q = true) :
    (optimization_step config peer_id plugin hasSession net st).result = none ∧
    run_single_step config peer_id (some plugin) hasSession net st
      = Except.ok (optimization_step config peer_id plugin hasSession net st) ∧
    (optimization_step config peer_id plugin hasSession net st).state.currentBestParams
      = st.currentBestParams ∧
    (optimization_step config peer_id plugin hasSession net st).state.currentBestPerformance
      = st.currentBestPerformance ∧
    (optimization_step config peer_id plugin hasSession net st).state.improvementsFound
      = st.improvementsFound := by
  have hstep : optimization_step config peer_id plugin hasSession net st
      = ⟨st, none, none, false⟩ := by
    rcases h with h | h | ⟨p, q, hok, hrej⟩
    · exact step_eq_of_noImprovement config peer_id plugin hasSession net st h
    · exact step_eq_of_evaluationError config peer_id plugin hasSession net st h
    · exact step_eq_of_rejected config peer_id plugin hasSession net st p q hok hrej
  refine ⟨?_, rfl, ?_, ?_, ?_⟩ <;> rw [hstep]

/-- Witness for C6: a no-improvement signal over prior best `5` leaves
the state untouched and yields a `none` result without an error. -/
theorem step_no_accept_preserves_state_witness :
    (optimization_step cfgW "peer" pluginNoImprovement true (HttpOutcome.status 200)
      stBest5).result = none ∧
    run_single_step cfgW "peer" (some pluginNoImprovement) true (HttpOutcome.status 200)
        stBest5
      = Except.ok (optimization_step cfgW "peer" pluginNoImprovement true
        (HttpOutcome.status 200) stBest5) ∧
    (optimization_step cfgW "peer" pluginNoImprovement true (HttpOutcome.status 200)
      stBest5).state.currentBestParams = stBest5.currentBestParams ∧
    (optimization_step cfgW "peer" pluginNoImprovement true (HttpOutcome.status 200)
      stBest5).state.currentBestPerformance = stBest5.currentBestPerformance ∧
    (optimization_step cfgW "peer" pluginNoImprovement true (HttpOutcome.status 200)
      stBest5).state.improvementsFound = stBest5.improvementsFound :=
  step_no_accept_preserves_state cfgW "peer" pluginNoImprovement true
    (HttpOutcome.status 200) stBest5 (Or.inl rfl)

/-- C7: an accepted step advances the local best to the new pair,
increments the improvements-found counter and returns the accepted
`Optimae` as the step's result, for every session state and every
network outcome — in particular a non-success status or a transport
fault does not roll the locally recorded improvement back. -/
theorem accepted_step_advances_despite_submit_failure (config : OptimizerConfig)
    (peer_id : String) (plugin : OptimizationPlugin) (hasSession : Bool)
    (net : HttpOutcome) (st : RunnerState) (p : Params) (q : ℚ)
    (hok : plugin.optimize st.currentBestParams st.currentBestPerformance
      = PluginResult.ok p q)
    (hacc : tracker_rejects plugin st q = false) :
    (optimization_step config peer_id plugin hasSession net st).state.currentBestParams
      = some p ∧
    (optimization_step config peer_id plugin hasSession net st).state.currentBestPerformance
      = some q ∧
    (optimization_step config peer_id plugin hasSession net st).state.improvementsFound
      = st.improvementsFound + 1 ∧
    (optimization_step config peer_id plugin hasSession net st).result
      = some (acceptedOptimae config peer_id st p q) := by
  rw [step_eq_of_accepted config peer_id plugin hasSession net st p q hok hacc]
  exact ⟨rfl, rfl, rfl, rfl⟩

/-- Witness for C7: the node answers HTTP 500, the submission is reported
failed, yet the local best advances to `7`, the counter increments and
the step returns the accepted record. -/
theorem accepted_step_advances_witness :
    (optimization_step cfgW "peer" pluginSecond true (HttpOutcome.status 500)
      stBest5).submitOk = false ∧
    ((optimization_step cfgW "peer" pluginSecond true (HttpOutcome.status 500)
        stBest5).state.currentBestParams = some [("w", 2)] ∧
      (optimization_step cfgW "peer" pluginSecond true (HttpOutcome.status 500)
        stBest5).state.currentBestPerformance = some 7 ∧
      (optimization_step cfgW "peer" pluginSecond true (HttpOutcome.status 500)
        stBest5).state.improvementsFound = stBest5.improvementsFound + 1 ∧
      (optimization_step cfgW "peer" pluginSecond true (HttpOutcome.status 500)
        stBest5).result = some (acceptedOptimae cfgW "peer" stBest5 [("w", 2)] 7)) :=
  ⟨by decide,
    accepted_step_advances_despite_submit_failure cfgW "peer" pluginSecond true
      (HttpOutcome.status 500) stBest5 [("w", 2)] 7 rfl (by decide)⟩

/-- C8: with no strategy bound, both the single-step entry point and the
loop entry point fail with the not-ready error (the spec's
`NotReadyError`, raised as `RuntimeError("Plugin not loaded ...")` in the
source): the call returns the error as its outcome, no step is executed
and no loop is run, and the failure is confined to that call's result. -/
theorem not_ready_without_plugin (config : OptimizerConfig) (peer_id : String)
    (hasSession : Bool) (net : HttpOutcome) (st : RunnerState)
    (netS : Nat → HttpOutcome) (fuel : Nat) :
    run_single_step config peer_id none hasSession net st
        = Except.error RunnerError.notReady ∧
    start config peer_id none netS fuel st = Except.error RunnerError.notReady :=
  ⟨rfl, rfl⟩

lemma step_preserves_best_consistency (config : OptimizerConfig) (peer_id : String)
    (plugin : OptimizationPlugin) (hasSession : Bool) (net : HttpOutcome)
    (st : RunnerState)
    (h : st.currentBestParams.isSome = st.currentBestPerformance.isSome) :
    (optimization_step config peer_id plugin hasSession net st).state.currentBestParams.isSome
      = (optimization_step config peer_id plugin hasSession net st).state.currentBestPerformance.isSome := by
  cases hopt : plugin.optimize st.currentBestParams st.currentBestPerformance with
  | noImprovement =>
    rw [step_eq_of_noImprovement config peer_id plugin hasSession net st hopt]
    exact h
  | evaluationError =>
    rw [step_eq_of_evaluationError config peer_id plugin hasSession net st hopt]
    exact h
  | ok p q =>
    cases hrej : tracker_rejects plugin st q with
    | true =>
      rw [step_eq_of_rejected config peer_id plugin hasSession net st p q hopt hrej]
      exact h
    | false =>
      rw [step_eq_of_accepted config peer_id plugin hasSession net st p q hopt hrej]
      rfl

lemma runLoop_preserves_best_consistency (config : OptimizerConfig) (peer_id : String)
    (pluginS : Nat → OptimizationPlugin) (netS : Nat → HttpOutcome) (fuel : Nat)
    (st : RunnerState)
    (h : st.currentBestParams.isSome = st.currentBestPerformance.isSome) :
    (runLoop config peer_id pluginS netS fuel st).currentBestParams.isSome
      = (runLoop config peer_id pluginS netS fuel st).currentBestPerformance.isSome := by
  induction fuel generalizing st with
  | zero => simpa [runLoop] using h
  | succ fuel ih =>
    simp only [runLoop]
    cases hrun : st.running with
    | false => simpa using h
    | true =>
      by_cases hstop : (maxStepsTruthy config.max_steps &&
          decide ((st.stepsCompleted : Int) ≥ config.max_steps.getD 0)) = true
      · simpa [hstop] using h
      · simp only [hstop, Bool.not_true, Bool.false_eq_true, if_false]
        exact ih _ (step_preserves_best_consistency config peer_id
          (pluginS st.stepsCompleted) true (netS st.stepsCompleted) st h)

/-- C9: the current-best parameters and the current-best performance are
both null at construction, and if they are both null or both non-null
before a step or a loop run then they remain so after it — they are only
ever replaced together, never one without the other. -/
theorem best_pair_consistency (config : OptimizerConfig) (peer_id : String)
    (plugin : OptimizationPlugin) (hasSession : Bool) (net : HttpOutcome)
    (pluginS : Nat → OptimizationPlugin) (netS : Nat → HttpOutcome) (fuel : Nat)
    (st : RunnerState)
    (h : st.currentBestParams.isSome = st.currentBestPerformance.isSome) :
    initState.currentBestParams.isSome = initState.currentBestPerformance.isSome ∧
    (optimization_step config peer_id plugin hasSession net st).state.currentBestParams.isSome
      = (optimization_step config peer_id plugin hasSession net st).state.currentBestPerformance.isSome ∧
    (runLoop config peer_id pluginS netS fuel st).currentBestParams.isSome
      = (runLoop config peer_id pluginS netS fuel st).currentBestPerformance.isSome :=
  ⟨rfl,
    step_preserves_best_consistency config peer_id plugin hasSession net st h,
    runLoop_preserves_best_consistency config peer_id pluginS netS fuel st h⟩

/-- Witness for C9: the invariant holds at the freshly constructed state
and is preserved by a concrete step and a concrete loop run. -/
theorem best_pair_consistency_witness :
    initState.currentBestParams.isSome = initState.currentBestPerformance.isSome ∧
    (optimization_step cfgW "peer" pluginSecond true (HttpOutcome.status 200)
        initState).state.currentBestParams.isSome
      = (optimization_step cfgW "peer" pluginSecond true (HttpOutcome.status 200)
        initState).state.currentBestPerformance.isSome ∧
    (runLoop cfgW "peer" (fun _ => pluginSecond) (fun _ => HttpOutcome.status 200) 2
        initState).currentBestParams.isSome
      = (runLoop cfgW "peer" (fun _ => pluginSecond) (fun _ => HttpOutcome.status 200) 2
        initState).currentBestPerformance.isSome :=
  best_pair_consistency cfgW "peer" pluginSecond true (HttpOutcome.status 200)
    (fun _ => pluginSecond) (fun _ => HttpOutcome.status 200) 2 initState rfl

/-- A plugin whose domain metadata lacks the `higher_is_better` key. -/
def pluginNoMeta : OptimizationPlugin where
  optimize := fun _ _ => PluginResult.ok [("w", 2)] 7
  get_domain_metadata := []

/-- C10: when the domain metadata does not contain the key
`higher_is_better`, the lookup defaults to `true`, so with a current
best the candidate is accepted iff its performance strictly exceeds the
current best. -/
theorem missing_direction_defaults_to_higher (config : OptimizerConfig)
    (peer_id : String) (plugin : OptimizationPlugin) (hasSession : Bool)
    (net : HttpOutcome) (st : RunnerState) (p : Params) (q best : ℚ)
    (hmeta : plugin.get_domain_metadata.find? (fun kv => kv.1 == "higher_is_better")
      = none)
    (hok : plugin.optimize st.currentBestParams st.currentBestPerformance
      = PluginResult.ok p q)
    (hbest : st.currentBestPerformance = some best) :
    Metadata.get plugin.get_domain_metadata "higher_is_better" true = true ∧
    ((optimization_step config peer_id plugin hasSession net st).result.isSome = true ↔
      best < q) := by
  have hget : Metadata.get plugin.get_domain_metadata "higher_is_better" true = true := by
    unfold Metadata.get
    rw [hmeta]
  refine ⟨hget, ?_⟩
  have hiff := (step_accepts_iff_strict_improvement config peer_id plugin hasSession
    net st p q hok).2 best hbest
  rw [hget] at hiff
  simpa using hiff

/-- Witness for C10: with empty metadata and prior best `5`, a candidate
at `7` is accepted because the missing key defaults to maximizing. -/
theorem missing_direction_defaults_witness :
    Metadata.get pluginNoMeta.get_domain_metadata "higher_is_better" true = true ∧
    ((optimization_step cfgW "peer" pluginNoMeta true (HttpOutcome.status 200)
      stBest5).result.isSome = true ↔ (5 : ℚ) < 7) :=
  missing_direction_defaults_to_higher cfgW "peer" pluginNoMeta true
    (HttpOutcome.status 200) stBest5 [("w", 2)] 7 5 rfl rfl rfl

end DoinOptimizer
